import Mathlib

/-
Verification development for `src/scripts/dragevent.js` of the taocket repository.

The file under study has three parts:
  1. a `dragging()` setup function that, when the element matching
     `[data-taoket-drag-region]` exists, installs a `mousedown` listener on it
     and `mousemove` / `mouseup` listeners on the window, maintaining the
     closure variables `isDragging`, `startX`, `startY`;
  2. two identical IIFEs, each installing a document-wide `mousedown` listener
     that checks the target's `data-taocket-drag-region` attribute and the
     click detail, calls `preventDefault`, `stopImmediatePropagation` and
     `invoke("Move", true)` when the check passes;
  3. an IIFE installing the invocation bridge `window.__API__INVOKE` (aliased
     to `window.invoke`) guarded by a presence check, with a private counter
     `nextId` starting at 1; each call builds the envelope
     `\x7b payload: \x7b id, event: \x7b type, value \x7d \x7d \x7d`,
     serializes it with `JSON.stringify(obj, null, 2)` and posts it through
     `window.ipc.postMessage`, inside a Promise executor that never calls
     `resolve` or `reject`.

Everything below is a shallow embedding of that code: pure functions over
explicit state, executable throughout.
-/

namespace Dragevent

/-- A JSON-serializable value as used by the bridge.  The bridge is generic in
the value; the file only ever passes booleans, but the embedding keeps the
scalar JSON values so the envelope serialization stays faithful to
`JSON.stringify`. -/
inductive JsValue where
  | bool (b : Bool)
  | str (s : String)
  | num (n : Int)
  | null
deriving DecidableEq, Repr

/-- A JavaScript runtime error, as raised for instance by reading
`postMessage` off an undefined `window.ipc`. -/
inductive JsError where
  | typeError (msg : String)
deriving DecidableEq, Repr

/-- The state of the promise returned by `invoke`: pending, fulfilled by the
`resolve` callback, or rejected (by the `reject` callback or by the promise
constructor when the executor body throws). -/
inductive PromiseState where
  | pending
  | fulfilled (v : JsValue)
  | rejected (e : JsError)
deriving DecidableEq, Repr

/-- The mutable state visible to the bridge closure: its private counter
`nextId`, whether `window.ipc` is present, and the log of strings handed to
`window.ipc.postMessage` (in order of posting). -/
structure Env where
  nextId : Nat
  ipcPresent : Bool
  posted : List String
deriving DecidableEq, Repr

/-- One hexadecimal digit, lower case, as produced by `JSON.stringify` in
`\u00XX` escapes. -/
def hexDigit (n : Nat) : Char :=
  if n < 10 then Char.ofNat (48 + n) else Char.ofNat (87 + n)

/-- Four hexadecimal digits of `n` (used for `\uXXXX`). -/
def hex4 (n : Nat) : String :=
  String.mk [hexDigit (n / 4096 % 16), hexDigit (n / 256 % 16),
             hexDigit (n / 16 % 16), hexDigit (n % 16)]

/-- The escaping `JSON.stringify` applies to one character of a string
literal. -/
def jsonEscapeChar (c : Char) : String :=
  if c = '"' then "\\\""
  else if c = '\\' then "\\\\"
  else if c = Char.ofNat 8 then "\\b"
  else if c = Char.ofNat 9 then "\\t"
  else if c = Char.ofNat 10 then "\\n"
  else if c = Char.ofNat 12 then "\\f"
  else if c = Char.ofNat 13 then "\\r"
  else if c.toNat < 32 then "\\u" ++ hex4 c.toNat
  else String.singleton c

/-- The body of a JSON string literal as `JSON.stringify` renders it. -/
def jsonEscape (s : String) : String :=
  String.join (s.data.map jsonEscapeChar)

/-- A scalar JSON value as `JSON.stringify` renders it. -/
def stringifyValue : JsValue → String
  | .bool b => if b then "true" else "false"
  | .str s => "\"" ++ jsonEscape s ++ "\""
  | .num n => toString n
  | .null => "null"

/-- The exact text `JSON.stringify(\x7b payload: \x7b id, event: \x7b type:
event, value \x7d \x7d \x7d, null, 2)` produces: pretty-printed with 2-space
indentation and newlines, keys in insertion order. -/
def stringifyEnvelope (id : Nat) (event : String) (value : JsValue) : String :=
  "\x7b\n  \"payload\": \x7b\n    \"id\": " ++ toString id ++
  ",\n    \"event\": \x7b\n      \"type\": \"" ++ jsonEscape event ++
  "\",\n      \"value\": " ++ stringifyValue value ++
  "\n    \x7d\n  \x7d\n\x7d"

/-- The transport call `window.ipc.postMessage(message)`: when `window.ipc`
is present the message is appended to the posted log; when it is absent the
property read raises a `TypeError`, modelled as the error result.  No
availability check happens anywhere else. -/
def ipcUndefinedError : JsError :=
  .typeError "Cannot read properties of undefined (reading postMessage)"

/-- Effect of `window.ipc.postMessage message` on the environment. -/
def postMessage (env : Env) (message : String) : Except JsError Env :=
  if env.ipcPresent then .ok { env with posted := env.posted ++ [message] }
  else .error ipcUndefinedError

/-- Outcome of running the promise executor body: the updated environment,
the request id the body assigned, the envelope text it built, the settlement
the body performed by calling `resolve`/`reject` (none when it called
neither), and the exception the body left uncaught (none when it returned
normally). -/
structure ExecOutcome where
  env : Env
  id : Nat
  message : String
  settled : Option PromiseState
  thrown : Option JsError
deriving DecidableEq, Repr

/-- The executor body of `invoke`, line for line from the source:
`const id = nextId++`, build `message` via `JSON.stringify`, then
`window.ipc.postMessage(message)`.  The body never calls the `resolve` or
`reject` callback it receives, so `settled` is `none` on every path; when the
transport call raises, the error escapes the body uncaught. -/
def invokeExecutorBody (event : String) (value : JsValue) (env : Env) : ExecOutcome :=
  let id := env.nextId
  let env1 : Env := { env with nextId := env.nextId + 1 }
  let message := stringifyEnvelope id event value
  match postMessage env1 message with
  | .ok env2 => { env := env2, id := id, message := message, settled := none, thrown := none }
  | .error e => { env := env1, id := id, message := message, settled := none, thrown := some e }

/-- Semantics of `new Promise(executor)`: the executor body runs
synchronously; if it settled the promise through its callbacks that
settlement stands, otherwise an uncaught exception in the body rejects the
promise with that exception, and a normal return with no settlement leaves
the promise pending. -/
def runPromiseCtor (outcome : ExecOutcome) : PromiseState :=
  match outcome.settled with
  | some s => s
  | none =>
    match outcome.thrown with
    | some e => .rejected e
    | none => .pending

/-- Result of one `invoke(event, value)` call: the updated environment, the
request id it consumed, the envelope it built, and the promise it returned. -/
structure InvokeResult where
  env : Env
  id : Nat
  message : String
  promise : PromiseState
deriving DecidableEq, Repr

/-- The global `invoke` function installed as `window.__API__INVOKE`:
`return new Promise((resolve, reject) => \x7b ... \x7d)`. -/
def invoke (event : String) (value : JsValue) (env : Env) : InvokeResult :=
  let o := invokeExecutorBody event value env
  { env := o.env, id := o.id, message := o.message, promise := runPromiseCtor o }

/-- The installation guard of the bridge IIFE:
`if (window.__API__INVOKE) return; let nextId = 1; window.__API__INVOKE = ...`.
The state of `window.__API__INVOKE` is `none` when not installed and
`some k` when an instance with counter value `k` is installed. -/
def installGuard : Option Nat → Option Nat
  | some k => some k
  | none => some 1

/-- Fold a list of `(event, value)` calls through `invoke`, returning the
final environment. -/
def runInvokes (calls : List (String × JsValue)) (env : Env) : Env :=
  calls.foldl (fun e c => (invoke c.1 c.2 e).env) env

/-- The request ids assigned, in order, by a sequence of `invoke` calls
starting from `env`. -/
def idsAssigned : List (String × JsValue) → Env → List Nat
  | [], _ => []
  | c :: rest, env =>
    let r := invoke c.1 c.2 env
    r.id :: idsAssigned rest r.env

/-- Remove the space and newline characters `JSON.stringify(·, null, 2)`
inserts as pretty-print whitespace.  (Valid comparison for envelopes whose
string literals contain no such characters, as is the case for the concrete
envelope of the claim.) -/
def stripWs (s : String) : String :=
  String.mk (s.data.filter (fun c => c ≠ ' ' ∧ c ≠ '\n'))

/-- A bridge call as emitted by the drag listeners: the event name and the
value passed to `invoke`. -/
def BridgeCall := String × JsValue
deriving instance DecidableEq, Repr for BridgeCall

/-- The drag session state kept in the closure of `dragging()`:
`let isDragging = false; let startX = 0; let startY = 0;`. -/
structure DragState where
  isDragging : Bool
  startX : Int
  startY : Int
deriving DecidableEq, Repr

/-- The initial drag session state, as declared in `dragging()`. -/
def initDragState : DragState :=
  { isDragging := false, startX := 0, startY := 0 }

/-- The fields of a DOM mouse event the listeners read: `button`, `clientX`,
`clientY`, and `detail` (the native click count). -/
structure MouseEv where
  button : Nat
  clientX : Int
  clientY : Int
  detail : Nat
deriving DecidableEq, Repr

/-- The `mousedown` listener installed on the drag-region element by
`dragging()`: returns early unless the primary button (0) was pressed;
otherwise sets `isDragging`, records the start coordinates, and calls
`invoke("Move", true)` (it also calls `preventDefault` and
`stopPropagation`, which do not touch the session state or the bridge).
Returns the updated session state and the bridge calls emitted. -/
def onRegionMouseDown (s : DragState) (e : MouseEv) : DragState × List BridgeCall :=
  if e.button ≠ 0 then (s, [])
  else ({ isDragging := true, startX := e.clientX, startY := e.clientY },
        [("Move", JsValue.bool true)])

/-- The document-wide `mousemove` listener installed by `dragging()`:
returns early when no session is active; otherwise computes `deltaX` and
`deltaY` from the recorded start coordinates and does nothing with them. -/
def onWindowMouseMove (s : DragState) (e : MouseEv) : DragState × List BridgeCall :=
  if !s.isDragging then (s, [])
  else
    let deltaX := e.clientX - s.startX
    let deltaY := e.clientY - s.startY
    (s, [])

/-- The document-wide `mouseup` listener installed by `dragging()`: returns
early when no session is active; otherwise clears `isDragging` and calls
`invoke("Move", false)`. -/
def onWindowMouseUp (s : DragState) : DragState × List BridgeCall :=
  if !s.isDragging then (s, [])
  else ({ s with isDragging := false }, [("Move", JsValue.bool false)])

/-- One pointer input delivered to the drag-region listeners: a press on the
region, a pointer move, or a release. -/
inductive DragInput where
  | press (e : MouseEv)
  | move (e : MouseEv)
  | release
deriving DecidableEq, Repr

/-- Dispatch one input to the corresponding listener of `dragging()`. -/
def dragStep (s : DragState) : DragInput → DragState × List BridgeCall
  | .press e => onRegionMouseDown s e
  | .move e => onWindowMouseMove s e
  | .release => onWindowMouseUp s

/-- Run a sequence of pointer inputs through the drag listeners, collecting
the bridge calls in emission order. -/
def runDrag (s : DragState) : List DragInput → DragState × List BridgeCall
  | [] => (s, [])
  | i :: rest =>
    let r := dragStep s i
    let r2 := runDrag r.1 rest
    (r2.1, r.2 ++ r2.2)

/-- The input sequence of matched press/release pairs: each press on the
region immediately followed by its release. -/
def pressReleaseSeq (presses : List MouseEv) : List DragInput :=
  presses.flatMap (fun e => [DragInput.press e, DragInput.release])

/-- The fields of a document-level `mousedown` event read by the fallback
listeners: whether `e.target.getAttribute("data-taocket-drag-region")` is
non-null, and `e.detail`. -/
structure FallbackEv where
  targetHasMarker : Bool
  detail : Nat
deriving DecidableEq, Repr

/-- Observable outcome of one document-level listener on one event: the
bridge calls it emitted and whether it called `stopImmediatePropagation` and
`preventDefault`. -/
structure ListenerOutcome where
  calls : List BridgeCall
  stopImmediate : Bool
  preventDefault : Bool
deriving DecidableEq, Repr

/-- The fallback document-wide `mousedown` listener (each of the two IIFEs
installs one copy): when the target bears the `data-taocket-drag-region`
attribute and the click detail is 1 or 2, it calls `preventDefault`,
`stopImmediatePropagation` and `invoke("Move", true)`; otherwise it does
nothing. -/
def fallbackMouseDown (e : FallbackEv) : ListenerOutcome :=
  if e.targetHasMarker = true ∧ (e.detail = 1 ∨ e.detail = 2) then
    { calls := [("Move", JsValue.bool true)], stopImmediate := true, preventDefault := true }
  else
    { calls := [], stopImmediate := false, preventDefault := false }

/-- DOM dispatch of one event to the listeners registered on one target and
phase, in registration order: each listener runs in turn, and a listener
that calls `stopImmediatePropagation` prevents every later listener in the
list from running.  Returns the bridge calls emitted and how many listeners
ran. -/
def dispatchRun : List (FallbackEv → ListenerOutcome) → FallbackEv → List BridgeCall × Nat
  | [], _ => ([], 0)
  | l :: rest, e =>
    let o := l e
    if o.stopImmediate then (o.calls, 1)
    else
      let r := dispatchRun rest e
      (o.calls ++ r.1, r.2 + 1)

/-- The document-level `mousedown` listeners in registration order: the two
identical fallback listeners, one from each IIFE. -/
def documentMouseDownListeners : List (FallbackEv → ListenerOutcome) :=
  [fallbackMouseDown, fallbackMouseDown]

/-- The id consumed by an `invoke` call is the counter value at entry, on
both the success and the failure path of the transport call. -/
theorem invoke_id_eq (event : String) (value : JsValue) (env : Env) :
    (invoke event value env).id = env.nextId := by
  cases h : env.ipcPresent <;>
    simp [invoke, invokeExecutorBody, postMessage, h]

/-- Every `invoke` call advances the counter by exactly one, on both the
success and the failure path of the transport call. -/
theorem invoke_nextId_succ (event : String) (value : JsValue) (env : Env) :
    (invoke event value env).env.nextId = env.nextId + 1 := by
  cases h : env.ipcPresent <;>
    simp [invoke, invokeExecutorBody, postMessage, h]

/-- The ids assigned by a sequence of calls form the arithmetic run of step
one starting at the counter value at entry. -/
theorem idsAssigned_eq_range (calls : List (String × JsValue)) (env : Env) :
    idsAssigned calls env = List.range' env.nextId calls.length := by
  induction calls generalizing env with
  | nil => simp [idsAssigned]
  | cons c rest ih =>
    simp [idsAssigned, ih, invoke_id_eq, invoke_nextId_succ, List.range'_succ]

/-- C1: calling `invoke` N times, with any event names and values, assigns
the ids 1, 2, ..., N in order — N identifiers, pairwise distinct, strictly
increasing, starting at 1, incrementing by one per call, never reused and
never reset, whatever the transport does. -/
theorem invoke_ids_sequential (calls : List (String × JsValue)) (env : Env)
    (h : env.nextId = 1) :
    idsAssigned calls env = List.range' 1 calls.length ∧
    (idsAssigned calls env).length = calls.length ∧
    (idsAssigned calls env).Nodup ∧
    (idsAssigned calls env).Pairwise (· < ·) := by
  have hr := idsAssigned_eq_range calls env
  rw [h] at hr
  refine ⟨hr, ?_, ?_, ?_⟩ <;> rw [hr]
  · exact List.length_range' 1 1 calls.length
  · exact List.nodup_range' 1 calls.length 1 (by decide)
  · exact List.pairwise_lt_range' 1 calls.length 1 (by decide)

/-- Witness for C1 at a concrete three-call sequence from a fresh
environment. -/
theorem invoke_ids_sequential_check :
    idsAssigned
      [("Move", JsValue.bool true), ("Resize", JsValue.null), ("Move", JsValue.bool false)]
      { nextId := 1, ipcPresent := true, posted := [] } = [1, 2, 3] := by
  have h := invoke_ids_sequential
    [("Move", JsValue.bool true), ("Resize", JsValue.null), ("Move", JsValue.bool false)]
    { nextId := 1, ipcPresent := true, posted := [] } rfl
  rw [h.1]
  rfl

/-- C2: on the first call in a fresh environment, `invoke("Move", true)`
posts exactly the serialized envelope for id 1, whose non-whitespace content
is the compact JSON text, and in general every call with the transport
present posts exactly one message. -/
theorem first_invoke_envelope_exact (env : Env)
    (h1 : env.nextId = 1) (h2 : env.posted = []) (h3 : env.ipcPresent = true) :
    (invoke "Move" (JsValue.bool true) env).env.posted
      = [stringifyEnvelope 1 "Move" (JsValue.bool true)] ∧
    stripWs (stringifyEnvelope 1 "Move" (JsValue.bool true))
      = "\x7b\"payload\":\x7b\"id\":1,\"event\":\x7b\"type\":\"Move\",\"value\":true\x7d\x7d\x7d" ∧
    (∀ (env2 : Env) (ev : String) (v : JsValue), env2.ipcPresent = true →
      (invoke ev v env2).env.posted = env2.posted ++ [stringifyEnvelope env2.nextId ev v]) := by
  refine ⟨?_, by rfl, ?_⟩
  · simp [invoke, invokeExecutorBody, postMessage, h1, h2, h3]
  · intro env2 ev v hp
    simp [invoke, invokeExecutorBody, postMessage, hp]

/-- Witness for C2 at the concrete fresh environment. -/
theorem first_invoke_envelope_exact_check :
    (invoke "Move" (JsValue.bool true)
        { nextId := 1, ipcPresent := true, posted := [] }).env.posted
      = [stringifyEnvelope 1 "Move" (JsValue.bool true)] :=
  (first_invoke_envelope_exact
    { nextId := 1, ipcPresent := true, posted := [] } rfl rfl rfl).1

/-- C3: the promise executor body of `invoke` calls neither the `resolve`
nor the `reject` callback on any input, so when the call completes normally
(transport present) the returned promise is still pending — a caller
awaiting it hangs absent an external mechanism. -/
theorem invoke_promise_unsettled (event : String) (value : JsValue) (env : Env) :
    (invokeExecutorBody event value env).settled = none ∧
    (env.ipcPresent = true → (invoke event value env).promise = PromiseState.pending) := by
  constructor
  · cases h : env.ipcPresent <;>
      simp [invokeExecutorBody, postMessage, h]
  · intro hp
    simp [invoke, invokeExecutorBody, postMessage, hp, runPromiseCtor]

/-- Witness for C3 at a concrete call with the transport present. -/
theorem invoke_promise_unsettled_check :
    (invoke "Move" (JsValue.bool true)
        { nextId := 1, ipcPresent := true, posted := [] }).promise
      = PromiseState.pending :=
  (invoke_promise_unsettled "Move" (JsValue.bool true)
    { nextId := 1, ipcPresent := true, posted := [] }).2 rfl

/-- Running a concatenated input sequence threads the state through the
first part and concatenates the emitted calls. -/
theorem runDrag_append (s : DragState) (l1 l2 : List DragInput) :
    runDrag s (l1 ++ l2)
      = ((runDrag (runDrag s l1).1 l2).1,
         (runDrag s l1).2 ++ (runDrag (runDrag s l1).1 l2).2) := by
  induction l1 generalizing s with
  | nil => simp [runDrag]
  | cons i rest ih => simp [runDrag, ih]

/-- One matched press/release pair from an idle state: the press activates
the session and emits the begin call, the release deactivates it and emits
the end call. -/
theorem runDrag_pair (s : DragState) (e : MouseEv)
    (he : e.button = 0) :
    runDrag s [DragInput.press e, DragInput.release]
      = ({ isDragging := false, startX := e.clientX, startY := e.clientY },
         [("Move", JsValue.bool true), ("Move", JsValue.bool false)]) := by
  simp [runDrag, dragStep, onRegionMouseDown, onWindowMouseUp, he]

/-- Calls and final state of a whole sequence of matched primary-button
press/release pairs starting from an idle session. -/
theorem runDrag_pressReleaseSeq (presses : List MouseEv) (s : DragState)
    (hb : ∀ e ∈ presses, e.button = 0) (hs : s.isDragging = false) :
    (runDrag s (pressReleaseSeq presses)).2
      = presses.flatMap
          (fun _ => [("Move", JsValue.bool true), ("Move", JsValue.bool false)]) ∧
    (runDrag s (pressReleaseSeq presses)).1.isDragging = false := by
  induction presses generalizing s with
  | nil => simpa [pressReleaseSeq, runDrag] using hs
  | cons e rest ih =>
    have he : e.button = 0 := hb e (List.mem_cons_self e rest)
    have hrest : ∀ x ∈ rest, x.button = 0 := fun x hx => hb x (List.mem_cons_of_mem e hx)
    have hseq : pressReleaseSeq (e :: rest)
        = [DragInput.press e, DragInput.release] ++ pressReleaseSeq rest := by
      simp [pressReleaseSeq]
    rw [hseq, runDrag_append, runDrag_pair s e he]
    have ihx := ih { isDragging := false, startX := e.clientX, startY := e.clientY } hrest rfl
    simp [ihx.1, ihx.2]

/-- C4: after setup with the region present, any sequence of matched
primary-button press/release pairs on the drag region makes `isDragging`
alternate false to true at each press and back to false at each release,
emits exactly one `invoke("Move", true)` at the press followed by exactly
one `invoke("Move", false)` at the release for each pair, in that order, and
a release with no active session emits no call. -/
theorem drag_press_release_protocol (presses : List MouseEv) (s : DragState)
    (hb : ∀ e ∈ presses, e.button = 0) (hs : s.isDragging = false) :
    (runDrag s (pressReleaseSeq presses)).2
      = presses.flatMap
          (fun _ => [("Move", JsValue.bool true), ("Move", JsValue.bool false)]) ∧
    (runDrag s (pressReleaseSeq presses)).1.isDragging = false ∧
    (∀ (t : DragState) (e : MouseEv), e.button = 0 →
      (onRegionMouseDown t e).1.isDragging = true ∧
      (onRegionMouseDown t e).2 = [("Move", JsValue.bool true)]) ∧
    (∀ t : DragState, t.isDragging = true →
      (onWindowMouseUp t).1.isDragging = false ∧
      (onWindowMouseUp t).2 = [("Move", JsValue.bool false)]) ∧
    (∀ t : DragState, t.isDragging = false → onWindowMouseUp t = (t, [])) := by
  refine ⟨(runDrag_pressReleaseSeq presses s hb hs).1,
          (runDrag_pressReleaseSeq presses s hb hs).2, ?_, ?_, ?_⟩
  · intro t e he
    constructor <;> simp [onRegionMouseDown, he]
  · intro t ht
    constructor <;> simp [onWindowMouseUp, ht]
  · intro t ht
    simp [onWindowMouseUp, ht]

/-- Witness for C4 at a concrete two-pair sequence. -/
theorem drag_press_release_protocol_check :
    (runDrag initDragState
        (pressReleaseSeq [⟨0, 10, 20, 1⟩, ⟨0, 5, 6, 1⟩])).2
      = [("Move", JsValue.bool true), ("Move", JsValue.bool false),
         ("Move", JsValue.bool true), ("Move", JsValue.bool false)] := by
  have h := drag_press_release_protocol [⟨0, 10, 20, 1⟩, ⟨0, 5, 6, 1⟩]
    initDragState (by decide) rfl
  rw [h.1]
  rfl

/-- C5: a document-level `mousedown` whose target bears the fallback marker
attribute, with click detail 1 or 2, makes the fallback listeners emit
exactly one `invoke("Move", true)` call, and only the first of the two
registered listeners runs because it stops immediate propagation — the
duplicate second listener never executes for that event. -/
theorem fallback_mousedown_single_call (e : FallbackEv)
    (hm : e.targetHasMarker = true) (hd : e.detail = 1 ∨ e.detail = 2) :
    dispatchRun documentMouseDownListeners e = ([("Move", JsValue.bool true)], 1) ∧
    (fallbackMouseDown e).stopImmediate = true ∧
    (fallbackMouseDown e).preventDefault = true := by
  have hcond : e.targetHasMarker = true ∧ (e.detail = 1 ∨ e.detail = 2) := ⟨hm, hd⟩
  refine ⟨?_, ?_, ?_⟩ <;>
    simp [documentMouseDownListeners, dispatchRun, fallbackMouseDown, if_pos hcond]

/-- Witness for C5 at a concrete single-click event on a marked target. -/
theorem fallback_mousedown_single_call_check :
    dispatchRun documentMouseDownListeners ⟨true, 1⟩
      = ([("Move", JsValue.bool true)], 1) :=
  (fallback_mousedown_single_call ⟨true, 1⟩ rfl (Or.inl rfl)).1

/-- Running a sequence of calls adds its length to the counter. -/
theorem runInvokes_nextId (calls : List (String × JsValue)) (env : Env) :
    (runInvokes calls env).nextId = env.nextId + calls.length := by
  induction calls generalizing env with
  | nil => simp [runInvokes]
  | cons c rest ih =>
    have h1 : runInvokes (c :: rest) env = runInvokes rest (invoke c.1 c.2 env).env := by
      simp [runInvokes]
    rw [h1, ih, invoke_nextId_succ, List.length_cons]
    omega

/-- The environment reached by installing the bridge on a fresh window and
then making a sequence of calls. -/
def envAfterInstallAndCalls (calls : List (String × JsValue)) (ipc : Bool) : Env :=
  runInvokes calls
    { nextId := (installGuard none).getD 0, ipcPresent := ipc, posted := [] }

/-- C6: installing the bridge a second time is a no-op that keeps the
existing instance and its counter: the guard is idempotent, never replaces
an installed instance, and an `invoke` made after a second installation —
following the first installation and any number of calls — continues the id
sequence, using `calls.length + 1`. -/
theorem bridge_install_idempotent :
    (∀ c : Option Nat, installGuard (installGuard c) = installGuard c) ∧
    (∀ k : Nat, installGuard (some k) = some k) ∧
    (∀ (calls : List (String × JsValue)) (ipc : Bool) (ev : String) (v : JsValue),
      installGuard (some (envAfterInstallAndCalls calls ipc).nextId)
        = some (envAfterInstallAndCalls calls ipc).nextId ∧
      (invoke ev v (envAfterInstallAndCalls calls ipc)).id = calls.length + 1) := by
  refine ⟨?_, ?_, ?_⟩
  · intro c
    cases c <;> rfl
  · intro k
    rfl
  · intro calls ipc ev v
    refine ⟨rfl, ?_⟩
    rw [invoke_id_eq, envAfterInstallAndCalls, runInvokes_nextId]
    simp [installGuard]
    omega

/-- C7: when the transport is absent, `invoke` performs no availability
check beforehand — the counter is consumed and advanced all the same — and
the failure is exactly the error the transport access raises, carried
unwrapped to the caller as the rejection of the returned promise; nothing is
posted. -/
theorem invoke_ipc_absent_error (env : Env) (ev : String) (v : JsValue)
    (h : env.ipcPresent = false) :
    (invoke ev v env).promise = PromiseState.rejected ipcUndefinedError ∧
    (invokeExecutorBody ev v env).thrown = some ipcUndefinedError ∧
    postMessage { env with nextId := env.nextId + 1 } (stringifyEnvelope env.nextId ev v)
      = Except.error ipcUndefinedError ∧
    (invoke ev v env).env = { env with nextId := env.nextId + 1 } := by
  refine ⟨?_, ?_, ?_, ?_⟩ <;>
    simp [invoke, invokeExecutorBody, postMessage, runPromiseCtor, h]

/-- Witness for C7 at a concrete environment with the transport absent. -/
theorem invoke_ipc_absent_error_check :
    (invoke "Move" (JsValue.bool true)
        { nextId := 1, ipcPresent := false, posted := [] }).promise
      = PromiseState.rejected ipcUndefinedError :=
  (invoke_ipc_absent_error
    { nextId := 1, ipcPresent := false, posted := [] } "Move" (JsValue.bool true) rfl).1

/-- C8: a press on the drag region with a non-primary button is a complete
no-op for the region listener: no bridge call, session flag and recorded
start coordinates untouched. -/
theorem nonprimary_button_noop (s : DragState) (e : MouseEv) (h : e.button ≠ 0) :
    onRegionMouseDown s e = (s, []) ∧
    (onRegionMouseDown s e).1.isDragging = s.isDragging ∧
    (onRegionMouseDown s e).1.startX = s.startX ∧
    (onRegionMouseDown s e).1.startY = s.startY := by
  refine ⟨?_, ?_, ?_, ?_⟩ <;> simp [onRegionMouseDown, h]

/-- Witness for C8 at a concrete right-button press on the idle state. -/
theorem nonprimary_button_noop_check :
    onRegionMouseDown initDragState ⟨2, 7, 9, 1⟩ = (initDragState, []) :=
  (nonprimary_button_noop initDragState ⟨2, 7, 9, 1⟩ (by decide)).1

/-- C9: the document-wide `mousemove` listener is effect-free at the public
interface on every input: whether or not a session is active it emits no
bridge call and returns the session state unchanged (the coordinate delta it
computes is dead), and with no active session it is a complete no-op. -/
theorem mousemove_no_effect (s : DragState) (e : MouseEv) :
    onWindowMouseMove s e = (s, []) := by
  cases h : s.isDragging <;> simp [onWindowMouseMove, h]

/-- C10: when the transport call inside `invoke` fails, the counter has
already been advanced: the failed call permanently consumes its id, and the
next call — here made in the same transport-absent environment — uses the
subsequent id. -/
theorem failed_invoke_consumes_id (env : Env) (ev : String) (v : JsValue)
    (ev2 : String) (v2 : JsValue) (h : env.ipcPresent = false) :
    (invoke ev v env).promise = PromiseState.rejected ipcUndefinedError ∧
    (invoke ev v env).id = env.nextId ∧
    (invoke ev v env).env.nextId = env.nextId + 1 ∧
    (invoke ev2 v2 (invoke ev v env).env).id = env.nextId + 1 := by
  refine ⟨?_, invoke_id_eq ev v env, invoke_nextId_succ ev v env, ?_⟩
  · simp [invoke, invokeExecutorBody, postMessage, runPromiseCtor, h]
  · rw [invoke_id_eq, invoke_nextId_succ]

/-- Witness for C10 at a concrete environment with the transport absent. -/
theorem failed_invoke_consumes_id_check :
    (invoke "Resize" JsValue.null
        (invoke "Move" (JsValue.bool true)
          { nextId := 4, ipcPresent := false, posted := [] }).env).id = 5 :=
  (failed_invoke_consumes_id
    { nextId := 4, ipcPresent := false, posted := [] }
    "Move" (JsValue.bool true) "Resize" JsValue.null rfl).2.2.2

end Dragevent
